import Mathlib

/-!
Verification of the `EnsembleClassifier` adapter
(`art/classifiers/ensemble.py`).

Shallow embedding: numpy arrays of rationals are modelled as flattened
`List ℚ` values (the stacking axis added by `np.array([...])` is the outer
list of a `List (List ℚ)`), member classifiers as records of functions, and
the fallible constructor as an `Except`.  `np.log` has no exact rational
counterpart, so `predict` is parametrised by the elementwise `log` function
it applies after clipping.
-/

namespace ArtEnsemble

/-- A member classifier, per the duck-typed `Classifier` contract: `predict`
takes the input and an as-logits flag, `class_gradient` an optional label
index and a logits flag, `loss_gradient` the labels.  `learning_phase` is the
member's own learning-phase flag (unset initially). -/
structure Classifier (α : Type) where
  clip_values : ℚ × ℚ
  nb_classes : ℕ
  input_shape : List ℕ
  predict : α → Bool → List ℚ
  class_gradient : α → Option ℕ → Bool → List ℚ
  loss_gradient : α → List ℚ → List ℚ
  learning_phase : Option Bool

instance {α : Type} : Inhabited (Classifier α) :=
  ⟨{ clip_values := (0, 0)
     nb_classes := 0
     input_shape := []
     predict := fun _ _ => []
     class_gradient := fun _ _ _ => []
     loss_gradient := fun _ _ => []
     learning_phase := none }⟩

/-- Modelled from the spec: a member's `set_learning_phase` "propagates to
every member's learning-phase flag"; the member classifier implementations
are outside this file's source, so the flag update is all we model. -/
def Classifier.setLearningPhase {α : Type} (c : Classifier α) (train : Bool) :
    Classifier α :=
  { c with learning_phase := some train }

/-- A dynamically-typed Python argument, as far as `isinstance(train, bool)`
can distinguish it. -/
inductive PyVal where
  | pybool (b : Bool)
  | pyint (n : Int)
  | pystr (s : String)
deriving DecidableEq

/-- Model of `isinstance(train, bool)`. -/
def PyVal.isBool : PyVal → Bool
  | .pybool _ => true
  | _ => false

/-- The `ValueError`s `EnsembleClassifier.__init__` can raise, one
constructor per distinct message in the source. -/
inductive InitError where
  | noClassifiers
  | incompatibleClipValues
  | incompatibleOutputShapes
  | incompatibleInputShapes
deriving DecidableEq, Repr

/-- The `NotImplementedError` raised by the unsupported operations. -/
inductive NotImplementedError where
  | mk
deriving DecidableEq, Repr

/-- The state of a constructed `EnsembleClassifier`.  `learning` stands for
the base class's `self._learning` attribute (the base `Classifier` is not in
the verified source; per the spec it records whether "the adapter has [a]
learning-phase concept configured"). -/
structure EnsembleClassifier (α : Type) where
  clip_values : ℚ × ℚ
  classifiers : List (Classifier α)
  classifier_weights : List ℚ
  nb_classifiers : ℕ
  input_shape : List ℕ
  nb_classes : ℕ
  learning : Option Bool
  learning_phase : Option Bool

namespace EnsembleClassifier

variable {α : Type}

/-- The membership checks of `__init__`'s `for classifier in classifiers`
loop: clip values against the configured `clip_values`, output and input
shapes against the first classifier.  (The `isinstance(classifier,
Classifier)` check is discharged statically by the `Classifier` type.) -/
def checkMembers (clip_values : ℚ × ℚ) (first : Classifier α) :
    List (Classifier α) → Option InitError
  | [] => none
  | c :: rest =>
      if c.clip_values ≠ clip_values then some .incompatibleClipValues
      else if c.nb_classes ≠ first.nb_classes then some .incompatibleOutputShapes
      else if c.input_shape ≠ first.input_shape then some .incompatibleInputShapes
      else checkMembers clip_values first rest

/-- Embedding of `EnsembleClassifier.__init__`.  `classifiers = none` models passing
`None`.  When `classifier_weights` is `None` the weights default to
`np.ones(n) / n`.  The learning-phase fields start unset. -/
def init (clip_values : ℚ × ℚ) (classifiers : Option (List (Classifier α)))
    (classifier_weights : Option (List ℚ)) :
    Except InitError (EnsembleClassifier α) :=
  match classifiers with
  | none => .error .noClassifiers
  | some [] => .error .noClassifiers
  | some (first :: rest) =>
      match checkMembers clip_values first (first :: rest) with
      | some e => .error e
      | none =>
          let n := (first :: rest).length
          let w :=
            match classifier_weights with
            | none => List.replicate n ((1 : ℚ) / n)
            | some ws => ws
          .ok { clip_values := clip_values
                classifiers := first :: rest
                classifier_weights := w
                nb_classifiers := n
                input_shape := first.input_shape
                nb_classes := first.nb_classes
                learning := none
                learning_phase := none }

/-- Elementwise scaling of an array by a scalar. -/
def smulList (c : ℚ) (l : List ℚ) : List ℚ := l.map (fun v => c * v)

/-- Model of `np.sum(·, axis=0)` over a stack of equal-shape arrays. -/
def sumAxis0 : List (List ℚ) → List ℚ
  | [] => []
  | a :: rest => rest.foldl (fun acc b => List.zipWith (· + ·) acc b) a

/-- Model of `np.clip(v, lo, hi)` on one entry. -/
def npclip (v lo hi : ℚ) : ℚ := min (max v lo) hi

/-- The `eps` literal of `predict`: `10e-8`. -/
def eps : ℚ := 10 / 10 ^ 8

/-- The `preds` array built in `predict`:
`np.array([w[i] * clf[i].predict(x, raw and logits) for i in range(n)])`. -/
def predictPreds (e : EnsembleClassifier α) (x : α) (logits raw : Bool) :
    List (List ℚ) :=
  (List.range e.nb_classifiers).map fun i =>
    smulList (e.classifier_weights.getD i 0)
      ((e.classifiers.getD i default).predict x (raw && logits))

/-- Embedding of `EnsembleClassifier.predict`.  `log` stands for elementwise `np.log`.
`Sum.inl` is the stacked `(nb_classifiers, …)` raw result, `Sum.inr` the
aggregated one. -/
def predict (log : ℚ → ℚ) (e : EnsembleClassifier α) (x : α)
    (logits raw : Bool) : List (List ℚ) ⊕ List ℚ :=
  let preds := predictPreds e x logits raw
  if raw then .inl preds
  else
    let z := sumAxis0 preds
    if logits then .inr (z.map fun v => log (npclip v eps (1 - eps)))
    else .inr z

/-- The `grads` array built in `class_gradient`. -/
def classGrads (e : EnsembleClassifier α) (x : α) (label : Option ℕ)
    (logits : Bool) : List (List ℚ) :=
  (List.range e.nb_classifiers).map fun i =>
    smulList (e.classifier_weights.getD i 0)
      ((e.classifiers.getD i default).class_gradient x label logits)

/-- Embedding of `EnsembleClassifier.class_gradient`. -/
def class_gradient (e : EnsembleClassifier α) (x : α) (label : Option ℕ)
    (logits raw : Bool) : List (List ℚ) ⊕ List ℚ :=
  let grads := classGrads e x label logits
  if raw then .inl grads else .inr (sumAxis0 grads)

/-- The `grads` array built in `loss_gradient`. -/
def lossGrads (e : EnsembleClassifier α) (x : α) (y : List ℚ) :
    List (List ℚ) :=
  (List.range e.nb_classifiers).map fun i =>
    smulList (e.classifier_weights.getD i 0)
      ((e.classifiers.getD i default).loss_gradient x y)

/-- Embedding of `EnsembleClassifier.loss_gradient`. -/
def loss_gradient (e : EnsembleClassifier α) (x : α) (y : List ℚ)
    (raw : Bool) : List (List ℚ) ⊕ List ℚ :=
  let grads := lossGrads e x y
  if raw then .inl grads else .inr (sumAxis0 grads)

/-- Embedding of `EnsembleClassifier.fit`: unconditionally `raise NotImplementedError`. -/
def fit (_e : EnsembleClassifier α) (_x : α) (_y : List ℚ)
    (_batch_size _nb_epochs : ℕ) : Except NotImplementedError Unit :=
  .error .mk

/-- Embedding of `EnsembleClassifier.fit_generator`: unconditionally raises.  The
generator argument is opaque. -/
def fit_generator {β : Type} (_e : EnsembleClassifier α) (_generator : β)
    (_nb_epochs : ℕ) : Except NotImplementedError Unit :=
  .error .mk

/-- Embedding of the `EnsembleClassifier.layer_names` property: unconditionally raises. -/
def layer_names (_e : EnsembleClassifier α) :
    Except NotImplementedError (List String) :=
  .error .mk

/-- Embedding of `EnsembleClassifier.get_activations`: unconditionally raises. -/
def get_activations (_e : EnsembleClassifier α) (_x : α) (_layer : ℕ ⊕ String) :
    Except NotImplementedError (List ℚ) :=
  .error .mk

/-- Embedding of `EnsembleClassifier.save`: unconditionally raises. -/
def save (_e : EnsembleClassifier α) (_filename : String)
    (_path : Option String) : Except NotImplementedError Unit :=
  .error .mk

/-- Embedding of `EnsembleClassifier.set_learning_phase`: acts only when
`self._learning is not None and isinstance(train, bool)`, in which case it
propagates to every member and records the flag; otherwise it returns with
no effect (and raises nothing). -/
def set_learning_phase (e : EnsembleClassifier α) (train : PyVal) :
    EnsembleClassifier α :=
  match e.learning, train with
  | some _, .pybool b =>
      { e with
        classifiers := e.classifiers.map (fun c => c.setLearningPhase b)
        learning_phase := some b }
  | _, _ => e

/-! ### Helper lemmas -/

theorem checkMembers_eq_none_iff (cv : ℚ × ℚ) (first : Classifier α) :
    ∀ cs : List (Classifier α),
      checkMembers cv first cs = none ↔
        ∀ c ∈ cs, c.clip_values = cv ∧ c.nb_classes = first.nb_classes ∧
          c.input_shape = first.input_shape
  | [] => by simp [checkMembers]
  | c :: rest => by
      simp only [checkMembers]
      by_cases h1 : c.clip_values = cv
      · by_cases h2 : c.nb_classes = first.nb_classes
        · by_cases h3 : c.input_shape = first.input_shape
          · simp [h1, h2, h3, checkMembers_eq_none_iff cv first rest]
          · simp [h1, h2, h3]
        · simp [h1, h2]
      · simp [h1]

theorem init_ok_fields {cv : ℚ × ℚ} {cs : List (Classifier α)}
    {w : Option (List ℚ)} {e : EnsembleClassifier α}
    (h : init cv (some cs) w = .ok e) :
    e.classifiers = cs ∧ e.nb_classifiers = cs.length ∧
      e.classifier_weights =
        (match w with
         | none => List.replicate cs.length ((1 : ℚ) / cs.length)
         | some ws => ws) := by
  cases cs with
  | nil => simp [init] at h
  | cons first rest =>
      cases hc : checkMembers cv first (first :: rest) with
      | some err => simp [init, hc] at h
      | none =>
          cases w with
          | none => simp only [init, hc] at h; cases h; exact ⟨rfl, rfl, rfl⟩
          | some ws => simp only [init, hc] at h; cases h; exact ⟨rfl, rfl, rfl⟩

theorem smulList_zipWith_add (c : ℚ) (a b : List ℚ) :
    List.zipWith (· + ·) (smulList c a) (smulList c b) =
      smulList c (List.zipWith (· + ·) a b) := by
  induction a generalizing b with
  | nil => simp [smulList]
  | cons x xs ih =>
      cases b with
      | nil => simp [smulList]
      | cons y ys => simp [smulList, mul_add, ih] at ih ⊢; simp [ih]

theorem sumAxis0_map_smul (c : ℚ) (L : List (List ℚ)) :
    sumAxis0 (L.map (smulList c)) = smulList c (sumAxis0 L) := by
  cases L with
  | nil => simp [sumAxis0, smulList]
  | cons a rest =>
      simp only [List.map_cons, sumAxis0]
      induction rest generalizing a with
      | nil => simp
      | cons b bs ih =>
          simp only [List.map_cons, List.foldl_cons]
          rw [smulList_zipWith_add, ih]

theorem getD_range_map {β : Type} [Inhabited β] (n i : ℕ) (f : ℕ → β)
    (hi : i < n) (d : β) :
    (((List.range n).map f).getD i d) = f i := by
  rw [List.getD_eq_getElem?_getD, List.getElem?_map, List.getElem?_range hi]
  rfl

/-! ### Concrete fixtures for witnesses and counterexamples -/

instance : Inhabited (EnsembleClassifier α) :=
  ⟨{ clip_values := (0, 0)
     classifiers := []
     classifier_weights := []
     nb_classifiers := 0
     input_shape := []
     nb_classes := 0
     learning := none
     learning_phase := none }⟩

end EnsembleClassifier

/-- A concrete single-output member: logit prediction `[5]`, probability
prediction `[1/2]`. -/
def cEx : Classifier Unit :=
  { clip_values := (0, 1)
    nb_classes := 1
    input_shape := [1]
    predict := fun _ flag => if flag then [5] else [1 / 2]
    class_gradient := fun _ _ _ => [3]
    loss_gradient := fun _ _ => [4]
    learning_phase := none }

/-- A concrete member with a different number of classes than `cEx`. -/
def cEx2 : Classifier Unit := { cEx with nb_classes := 2 }

/-- A concrete member with probability prediction `[1]`. -/
def cA : Classifier Unit :=
  { clip_values := (0, 1)
    nb_classes := 1
    input_shape := [1]
    predict := fun _ flag => if flag then [10] else [1]
    class_gradient := fun _ _ _ => [2]
    loss_gradient := fun _ _ => [6]
    learning_phase := none }

/-- A concrete member with probability prediction `[3]`. -/
def cB : Classifier Unit :=
  { cA with
    predict := fun _ flag => if flag then [20] else [3]
    class_gradient := fun _ _ _ => [4]
    loss_gradient := fun _ _ => [8] }

namespace EnsembleClassifier

/-- The ensemble over the single member `cEx` with default weights. -/
def eEx : EnsembleClassifier Unit :=
  ((init ((0 : ℚ), (1 : ℚ)) (some [cEx]) none).toOption).getD default

/-- The ensemble over `cEx` with a two-element weight list. -/
def eBad : EnsembleClassifier Unit :=
  ((init ((0 : ℚ), (1 : ℚ)) (some [cEx]) (some [5, 7])).toOption).getD default

/-- The two-member ensemble over `cA`, `cB` with default weights. -/
def eAvg : EnsembleClassifier Unit :=
  ((init ((0 : ℚ), (1 : ℚ)) (some [cA, cB]) none).toOption).getD default

/-- The two-member ensemble over `cA`, `cB` with explicit weights `[2, 3]`. -/
def eW : EnsembleClassifier Unit :=
  ((init ((0 : ℚ), (1 : ℚ)) (some [cA, cB]) (some [2, 3])).toOption).getD default

/-- An adapter like `eEx` but with the learning-phase concept configured. -/
def eLearn : EnsembleClassifier Unit := { eEx with learning := some false }

/-! ### Claims -/

/-- C2 (confirmed): the as-logits flag passed to each member's `predict` is
`raw and logits`: unless both `raw` and `logits` are set, the per-member
array is the one obtained by querying every member in probability space
(identical to the `logits=False, raw=False` per-member array); when both are
set, each member is queried directly in logit space. -/
theorem c2_member_query_flag (e : EnsembleClassifier α) (x : α)
    (logits raw : Bool) :
    predictPreds e x logits raw =
      if raw && logits then
        (List.range e.nb_classifiers).map fun i =>
          smulList (e.classifier_weights.getD i 0)
            ((e.classifiers.getD i default).predict x true)
      else predictPreds e x false false := by
  cases raw <;> cases logits <;> rfl

/-- C3 (confirmed): with `raw=False` and `logits=True`, `predict` returns
`log(clip(z, eps, 1 - eps))` applied elementwise to the weighted sum `z` of
the members' probability-space predictions, and the `eps` used (written
`10e-8` in the source) equals `1e-7` exactly. -/
theorem c3_logit_conversion (log : ℚ → ℚ) (e : EnsembleClassifier α) (x : α) :
    predict log e x true false =
      .inr ((sumAxis0 (predictPreds e x false false)).map fun v =>
        log (npclip v (1 / 10 ^ 7) (1 - 1 / 10 ^ 7))) := by
  have heps : eps = 1 / 10 ^ 7 := by norm_num [eps]
  simp only [predict, Bool.false_eq_true, if_false, if_true, heps]
  rfl

/-- C8 (confirmed): `class_gradient` and `loss_gradient` with `raw=True`
return the stacked per-member weighted gradients, and with `raw=False` the
elementwise sum of that same stack over the member axis. -/
theorem c8_gradient_raw_sum (e : EnsembleClassifier α) (x : α)
    (label : Option ℕ) (logits : Bool) (y : List ℚ) :
    class_gradient e x label logits true = .inl (classGrads e x label logits) ∧
    class_gradient e x label logits false =
      .inr (sumAxis0 (classGrads e x label logits)) ∧
    loss_gradient e x y true = .inl (lossGrads e x y) ∧
    loss_gradient e x y false = .inr (sumAxis0 (lossGrads e x y)) :=
  ⟨rfl, rfl, rfl, rfl⟩

/-- C9 (confirmed): `fit`, `fit_generator`, `save`, `layer_names` and
`get_activations` raise `NotImplementedError` for every adapter and all
arguments. -/
theorem c9_unsupported_operations {β : Type} (e : EnsembleClassifier α)
    (x : α) (y : List ℚ) (batch_size nb_epochs : ℕ) (gen : β)
    (layer : ℕ ⊕ String) (filename : String) (path : Option String) :
    fit e x y batch_size nb_epochs = .error .mk ∧
    fit_generator e gen nb_epochs = .error .mk ∧
    layer_names e = .error .mk ∧
    get_activations e x layer = .error .mk ∧
    save e filename path = .error .mk :=
  ⟨rfl, rfl, rfl, rfl, rfl⟩

/-- C1 counterexample: the claim fails when `logits=True`.  On the validly
constructed ensemble `eEx` (one member, default weights), the raw stack is
the weighted member logit prediction `[[5]]`, whose member-axis sum `[5]`
differs from the aggregated result `predict(x, logits=True, raw=False)`
(computed here with `log = id`), which is `[1/2]`. -/
theorem c1_counterexample :
    init ((0 : ℚ), (1 : ℚ)) (some [cEx]) none = .ok eEx ∧
    predict id eEx () true true = .inl [[(5 : ℚ)]] ∧
    predict id eEx () true false = .inr [(1 / 2 : ℚ)] ∧
    sumAxis0 [[(5 : ℚ)]] ≠ [(1 / 2 : ℚ)] :=
  by
  refine ⟨rfl, ?_, ?_, ?_⟩
  · simp [predict, predictPreds, eEx, init, checkMembers, cEx, smulList, sumAxis0,
      Except.toOption, Option.getD, List.range_succ, List.range_zero]
  · simp [predict, predictPreds, eEx, init, checkMembers, cEx, smulList, sumAxis0, npclip, eps,
      Except.toOption, Option.getD, List.range_succ, List.range_zero]
    norm_num
  · simp [sumAxis0]
    norm_num

/-- C1 (amended): for every validly constructed ensemble and input, the raw
stack's first axis has length equal to the member count for every setting of
the `logits` flag; and when `logits=False`, the elementwise sum of the raw
stack over the member axis equals `predict(x, raw=False)`.  (When
`logits=True` the relation fails, since the raw stack is taken in logit
space while the aggregated result is the log-clipped probability sum.) -/
theorem c1_predict_raw_stack {cv : ℚ × ℚ} {cs : List (Classifier α)}
    {w : Option (List ℚ)} {e : EnsembleClassifier α} (log : ℚ → ℚ)
    (h : init cv (some cs) w = .ok e) (x : α) (logits : Bool) :
    (predictPreds e x logits true).length = cs.length ∧
    predict log e x logits true = .inl (predictPreds e x logits true) ∧
    predict log e x false false =
      .inr (sumAxis0 (predictPreds e x false true)) := by
  obtain ⟨hcls, hn, hw⟩ := init_ok_fields h
  refine ⟨?_, rfl, rfl⟩
  simp [predictPreds, hn]

/-- Closed instantiation of `c1_predict_raw_stack` on the two-member
ensemble `eAvg`. -/
theorem c1_predict_raw_stack_witness :
    (predictPreds eAvg () false true).length = [cA, cB].length ∧
    predict id eAvg () false true = .inl (predictPreds eAvg () false true) ∧
    predict id eAvg () false false =
      .inr (sumAxis0 (predictPreds eAvg () false true)) :=
  @c1_predict_raw_stack Unit ((0:ℚ),(1:ℚ)) [cA, cB] none eAvg id rfl () false

/-- C4 counterexample: construction does not require the weights sequence to
have the same length as the members sequence.  With one member and the
two-element weight list `[5, 7]`, `__init__` succeeds and the resulting
adapter carries the mismatched weights unchanged. -/
theorem c4_counterexample :
    init ((0 : ℚ), (1 : ℚ)) (some [cEx]) (some [5, 7]) = .ok eBad ∧
    eBad.classifier_weights.length = 2 ∧
    eBad.classifiers.length = 1 :=
  ⟨rfl, rfl, rfl⟩

/-- C4 (amended): construction never checks the length of a supplied
weights sequence against the member count.  Whenever construction succeeds
with default weights, it also succeeds with ANY explicit weights list,
storing it as given; weights are only consumed positionally at call time. -/
theorem c4_no_weight_length_check {cv : ℚ × ℚ} {cs : List (Classifier α)}
    {e : EnsembleClassifier α} (ws : List ℚ)
    (h : init cv (some cs) none = .ok e) :
    init cv (some cs) (some ws) = .ok { e with classifier_weights := ws } := by
  cases cs with
  | nil => simp [init] at h
  | cons first rest =>
      cases hc : checkMembers cv first (first :: rest) with
      | some err => simp [init, hc] at h
      | none =>
          simp only [init, hc] at h
          cases h
          simp [init, hc]

/-- Closed instantiation of `c4_no_weight_length_check`: a weights list of
the wrong length (three weights, one member) is accepted. -/
theorem c4_no_weight_length_check_witness :
    init ((0 : ℚ), (1 : ℚ)) (some [cEx]) (some [2, 3, 4]) =
      .ok { eEx with classifier_weights := [2, 3, 4] } :=
  c4_no_weight_length_check [2, 3, 4] rfl

/-- C5 counterexample: a boolean `train` is NOT always propagated.  On the
adapter `eEx`, whose learning-phase concept is unconfigured
(`self._learning is None`), `set_learning_phase(True)` leaves the adapter
and its member untouched: nothing is recorded and the member's flag stays
unset, contradicting the claim's unconditional propagation for booleans. -/
theorem c5_counterexample :
    set_learning_phase eEx (.pybool true) = eEx ∧
    eEx.learning = none ∧
    (set_learning_phase eEx (.pybool true)).learning_phase ≠ some true ∧
    ((set_learning_phase eEx (.pybool true)).classifiers.getD 0
        default).learning_phase ≠ some true := by
  refine ⟨rfl, rfl, ?_, ?_⟩ <;>
    simp [set_learning_phase, eEx, init, checkMembers, cEx,
      Except.toOption, Option.getD]

/-- C5 (amended): `set_learning_phase(train)` is a silent no-op (raising
nothing and changing neither the adapter nor any member) when `train` is not
a boolean, and also when the adapter's learning-phase concept is
unconfigured (`self._learning is None`); only for a boolean `train` on an
adapter with the concept configured does it propagate `train` to every
member's learning-phase switch and then record it on the adapter. -/
theorem c5_learning_phase_guard (e : EnsembleClassifier α) (train : PyVal) :
    (train.isBool = false → set_learning_phase e train = e) ∧
    (e.learning = none → set_learning_phase e train = e) ∧
    (∀ b, train = .pybool b → e.learning ≠ none →
      set_learning_phase e train =
        { e with
          classifiers := e.classifiers.map (fun c => c.setLearningPhase b)
          learning_phase := some b } ∧
      (∀ c ∈ (set_learning_phase e train).classifiers,
        c.learning_phase = some b) ∧
      (set_learning_phase e train).learning_phase = some b) := by
  refine ⟨?_, ?_, ?_⟩
  · intro hb
    cases hl : e.learning <;> cases train <;>
      simp [PyVal.isBool] at hb ⊢ <;> simp [set_learning_phase, hl]
  · intro hl
    cases train <;> simp [set_learning_phase, hl]
  · rintro b rfl hl
    cases hl' : e.learning with
    | none => exact absurd hl' hl
    | some v =>
        refine ⟨by simp [set_learning_phase, hl'], ?_, ?_⟩
        · intro c hc
          simp only [set_learning_phase, hl', List.mem_map] at hc
          obtain ⟨c₀, _, rfl⟩ := hc
          rfl
        · simp [set_learning_phase, hl']

/-- Closed instantiation of `c5_learning_phase_guard`: on `eEx` a
non-boolean argument is a no-op, and on `eLearn` (learning-phase concept
configured) `set_learning_phase(True)` records `True` on the adapter. -/
theorem c5_learning_phase_guard_witness :
    set_learning_phase eEx (.pystr "qq") = eEx ∧
    (set_learning_phase eLearn (.pybool true)).learning_phase = some true :=
  ⟨(c5_learning_phase_guard eEx (.pystr "qq")).1 rfl,
   ((c5_learning_phase_guard eLearn (.pybool true)).2.2 true rfl
      (by simp [eLearn])).2.2⟩

/-- C6 (confirmed): construction fails with a `ValueError` (the spec's
`ConfigurationError`) whenever the members argument is absent or empty, or
some member's `clip_values` differs from the configured one, or some
member's `nb_classes` or `input_shape` differs from the first member's; no
adapter value is produced in any of these cases. -/
theorem c6_construction_errors (cv : ℚ × ℚ)
    (classifiers : Option (List (Classifier α))) (w : Option (List ℚ))
    (h : classifiers = none ∨ classifiers = some [] ∨
      ∃ first rest, classifiers = some (first :: rest) ∧
        ∃ c ∈ first :: rest, c.clip_values ≠ cv ∨
          c.nb_classes ≠ first.nb_classes ∨
          c.input_shape ≠ first.input_shape) :
    ∃ err, init cv classifiers w = .error err := by
  rcases h with h | h | ⟨first, rest, hcs, c, hc, hbad⟩
  · exact ⟨.noClassifiers, by rw [h]; rfl⟩
  · exact ⟨.noClassifiers, by rw [h]; rfl⟩
  · subst hcs
    cases hchk : checkMembers cv first (first :: rest) with
    | some err => exact ⟨err, by simp [init, hchk]⟩
    | none =>
        exfalso
        obtain ⟨h1, h2, h3⟩ :=
          (checkMembers_eq_none_iff cv first (first :: rest)).mp hchk c hc
        rcases hbad with hb | hb | hb
        · exact hb h1
        · exact hb h2
        · exact hb h3

/-- Closed instantiation of `c6_construction_errors`: two members whose
`nb_classes` disagree make construction fail. -/
theorem c6_construction_errors_witness :
    ∃ err, init ((0 : ℚ), (1 : ℚ)) (some [cEx, cEx2]) none =
      Except.error err :=
  c6_construction_errors ((0 : ℚ), (1 : ℚ)) (some [cEx, cEx2]) none
    (Or.inr (Or.inr ⟨cEx, [cEx2], rfl, cEx2, by simp,
      Or.inr (Or.inl (by simp [cEx, cEx2]))⟩))

/-- C7 (confirmed): constructed with `weights=None` and `N` members, every
effective weight equals `1/N`, and the aggregated `predict(x)` is exactly
the unweighted per-member average: `1/N` times the member-axis sum of the
members' probability predictions. -/
theorem c7_default_weights_average {cv : ℚ × ℚ} {cs : List (Classifier α)}
    {e : EnsembleClassifier α} (log : ℚ → ℚ)
    (h : init cv (some cs) none = .ok e) (x : α) :
    e.classifier_weights = List.replicate cs.length ((1 : ℚ) / cs.length) ∧
    predict log e x false false =
      .inr (smulList ((1 : ℚ) / cs.length)
        (sumAxis0 ((List.range cs.length).map fun i =>
          (cs.getD i default).predict x false))) := by
  obtain ⟨hcls, hn, hw⟩ := init_ok_fields h
  have hw' : e.classifier_weights =
      List.replicate cs.length ((1 : ℚ) / cs.length) := hw
  refine ⟨hw', ?_⟩
  have hpreds : predictPreds e x false false =
      ((List.range cs.length).map fun i =>
        (cs.getD i default).predict x false).map
        (smulList ((1 : ℚ) / cs.length)) := by
    simp only [predictPreds, hn, hcls, hw', List.map_map]
    refine List.map_congr_left ?_
    intro i hi
    have hilt : i < cs.length := List.mem_range.mp hi
    simp only [Function.comp]
    congr 1
    rw [List.getD_eq_getElem?_getD, List.getElem?_replicate, if_pos hilt]
    rfl
  show Sum.inr (sumAxis0 (predictPreds e x false false)) = _
  rw [hpreds, sumAxis0_map_smul]

/-- Closed instantiation of `c7_default_weights_average`: with two members
and default weights, each weight is `1/2` and `predict` returns the average
`[2]` of the member predictions `[1]` and `[3]`. -/
theorem c7_default_weights_average_witness :
    eAvg.classifier_weights = [(1 : ℚ) / 2, 1 / 2] ∧
    predict id eAvg () false false = .inr [(2 : ℚ)] := by
  have h := @c7_default_weights_average Unit ((0 : ℚ), (1 : ℚ)) [cA, cB]
    eAvg id rfl ()
  refine ⟨?_, ?_⟩
  · rw [h.1]; norm_num [List.replicate]
  · rw [h.2]
    norm_num [smulList, sumAxis0, cA, cB, List.range_succ, List.range_zero]

/-- C10 (confirmed): explicitly supplied weights are stored exactly as
given, with no normalization (in particular they need not sum to 1), and
the multiplier applied to member `i`'s output in `predict`,
`class_gradient` and `loss_gradient` is exactly `classifier_weights[i]`. -/
theorem c10_weights_used_verbatim {cv : ℚ × ℚ} {cs : List (Classifier α)}
    {e : EnsembleClassifier α} (ws : List ℚ)
    (h : init cv (some cs) (some ws) = .ok e) (x : α) (label : Option ℕ)
    (logits : Bool) (y : List ℚ) (i : ℕ) (hi : i < cs.length) :
    e.classifier_weights = ws ∧
    (predictPreds e x false false).getD i [] =
      smulList (ws.getD i 0) ((cs.getD i default).predict x false) ∧
    (classGrads e x label logits).getD i [] =
      smulList (ws.getD i 0)
        ((cs.getD i default).class_gradient x label logits) ∧
    (lossGrads e x y).getD i [] =
      smulList (ws.getD i 0) ((cs.getD i default).loss_gradient x y) := by
  obtain ⟨hcls, hn, hw⟩ := init_ok_fields h
  have hw' : e.classifier_weights = ws := hw
  refine ⟨hw', ?_, ?_, ?_⟩ <;>
    (simp only [predictPreds, classGrads, lossGrads, hcls, hn, hw',
       Bool.and_self]
     rw [getD_range_map _ _ _ hi])

/-- Closed instantiation of `c10_weights_used_verbatim`: the weights
`[2, 3]`, which do not sum to 1, are stored verbatim on `eW` and member 0's
outputs are multiplied by exactly `2`. -/
theorem c10_weights_used_verbatim_witness :
    ((2 : ℚ) + 3 ≠ 1) ∧
    (eW.classifier_weights = [2, 3] ∧
     (predictPreds eW () false false).getD 0 [] =
       smulList ([(2 : ℚ), 3].getD 0 0)
         (([cA, cB].getD 0 default).predict () false) ∧
     (classGrads eW () none false).getD 0 [] =
       smulList ([(2 : ℚ), 3].getD 0 0)
         (([cA, cB].getD 0 default).class_gradient () none false) ∧
     (lossGrads eW () []).getD 0 [] =
       smulList ([(2 : ℚ), 3].getD 0 0)
         (([cA, cB].getD 0 default).loss_gradient () [])) :=
  ⟨by norm_num,
   @c10_weights_used_verbatim Unit ((0 : ℚ), (1 : ℚ)) [cA, cB] eW [2, 3]
     rfl () none false [] 0 (by norm_num)⟩

end EnsembleClassifier

end ArtEnsemble
